import Mathlib

/-
Verification development for the spreadsheet ingestion engine of
`streamlit_app.py` (experiment-streamlit).

The Python source is shallowly embedded: pandas cell values become the
inductive type `Value` (NaN / NaT / None are conflated into `Value.blank`,
the explicit missing marker), numbers are rationals, and each loader
(`load_sales_data`, `load_bank_data`, `load_outflow_data`,
`load_account_data`) becomes a total Lean function returning
`Except LoadError Table` or `Option Table` according to whether the Python
code lets exceptions escape or swallows them.
-/

/-- Finite or infinite numeric value, as produced by pandas numeric
coercion (`pd.to_numeric`).  NaN is not a member: in the embedding NaN is
the missing marker `Value.blank`. -/
inductive XNum where
  | fin (q : Rat)
  | pinf
  | ninf
deriving DecidableEq

/-- Cell value of a raw or typed sheet cell.  `blank` stands for an empty
cell, NaN or NaT (the pandas missing markers); `date` is a typed datetime
carrying an abstract integer code. -/
inductive Value where
  | blank
  | text (s : String)
  | num (q : Rat)
  | posInf
  | negInf
  | date (d : Int)
deriving DecidableEq

/-- True exactly on the missing marker. -/
def isBlank : Value → Bool
  | .blank => true
  | _ => false

/-- Remove leading and trailing whitespace from a character list (the
`str.strip` / `String.trim` behaviour used for label and literal cleanup). -/
def trimChars (cs : List Char) : List Char :=
  ((cs.dropWhile Char.isWhitespace).reverse.dropWhile Char.isWhitespace).reverse

/-- Lower-case every character (the `str.lower` behaviour). -/
def lowerChars (cs : List Char) : List Char :=
  cs.map Char.toLower

/-- Numeric value of the digit string, most significant digit first. -/
def natOfDigits (cs : List Char) : Nat :=
  cs.foldl (fun a c => a * 10 + (c.toNat - 48)) 0

/-- Parse an unsigned decimal mantissa: `d+`, `d+.d*` or `.d+`
(at least one digit in total, at most one point). -/
def parseMantissa (cs : List Char) : Option Rat :=
  let intPart := cs.takeWhile (fun c => c ≠ '.')
  let rest := cs.dropWhile (fun c => c ≠ '.')
  match rest with
  | [] =>
      if !intPart.isEmpty && intPart.all Char.isDigit then
        some ((natOfDigits intPart : Nat) : Rat)
      else none
  | _ :: frac =>
      if (!intPart.isEmpty || !frac.isEmpty)
          && intPart.all Char.isDigit && frac.all Char.isDigit then
        some (mkRat ((natOfDigits (intPart ++ frac) : Nat) : Int) ((10 : Nat) ^ frac.length))
      else none

/-- Parse an optionally signed run of digits, as an integer (the exponent
part of scientific notation). -/
def parseSignedNat (cs : List Char) : Option Int :=
  match cs with
  | '+' :: r => if !r.isEmpty && r.all Char.isDigit then some ((natOfDigits r : Nat) : Int) else none
  | '-' :: r => if !r.isEmpty && r.all Char.isDigit then some (-((natOfDigits r : Nat) : Int)) else none
  | r => if !r.isEmpty && r.all Char.isDigit then some ((natOfDigits r : Nat) : Int) else none

/-- Scale a mantissa by a signed power of ten, written on the normalized
numerator and denominator so that it evaluates by kernel reduction. -/
def applyExp (q : Rat) (e : Int) : Rat :=
  if 0 ≤ e then mkRat (q.num * ((10 : Nat) ^ e.toNat : Nat)) q.den
  else mkRat q.num (q.den * (10 : Nat) ^ (-e).toNat)

/-- Parse an unsigned numeric literal with optional scientific exponent. -/
def parseUnsigned (cs : List Char) : Option Rat :=
  let mant := cs.takeWhile (fun c => c ≠ 'e' && c ≠ 'E')
  let rest := cs.dropWhile (fun c => c ≠ 'e' && c ≠ 'E')
  match rest with
  | [] => parseMantissa mant
  | _ :: ex =>
      match parseMantissa mant, parseSignedNat ex with
      | some m, some e => some (applyExp m e)
      | _, _ => none

/-- Negation on extended numbers. -/
def XNum.neg : XNum → XNum
  | .fin q => .fin (-q)
  | .pinf => .ninf
  | .ninf => .pinf

/-- Parse the body of a numeric literal after the optional sign, already
lower-cased: the pandas string parser recognises `inf` and `infinity` as
infinities and `nan` as NaN (NaN coerces to missing, hence `none`). -/
def parseBody (cs : List Char) : Option XNum :=
  if cs = "inf".data ∨ cs = "infinity".data then some .pinf
  else if cs = "nan".data then none
  else (parseUnsigned cs).map XNum.fin

/-- Parse a signed numeric literal, already trimmed and lower-cased. -/
def parseSigned (cs : List Char) : Option XNum :=
  match cs with
  | '-' :: r => (parseBody r).map XNum.neg
  | '+' :: r => parseBody r
  | r => parseBody r

/-- Numeric parse of a text cell, embedding the string conversion used by
`pd.to_numeric(..., errors="coerce")`: surrounding whitespace is ignored,
case is ignored for the `inf` / `infinity` / `nan` words, and the numeric
grammar is sign, decimal mantissa and optional scientific exponent.
`none` means the cell becomes NaN (missing). -/
def parseNum (s : String) : Option XNum :=
  parseSigned (lowerChars (trimChars s.data))

/-- Date parse of a text cell, embedding `pd.to_datetime(..., errors="coerce")`
on the calendar subset the claims exercise: an ISO `YYYY-MM-DD` literal is
accepted and encoded as the integer `y*10000 + m*100 + d` (so that the month
period of a date code is the code divided by 100); anything else is
unparsable and becomes NaT (missing). -/
def parseDate (s : String) : Option Int :=
  match trimChars s.data with
  | [y1, y2, y3, y4, '-', m1, m2, '-', d1, d2] =>
      if [y1, y2, y3, y4, m1, m2, d1, d2].all Char.isDigit then
        let y := natOfDigits [y1, y2, y3, y4]
        let m := natOfDigits [m1, m2]
        let d := natOfDigits [d1, d2]
        if 1 ≤ m && m ≤ 12 && 1 ≤ d && d ≤ 31 then
          some ((y * 10000 + m * 100 + d : Nat) : Int)
        else none
      else none
  | _ => none

/-- Cell-wise numeric coercion, embedding `pd.to_numeric(col, errors="coerce")`
(lines 93, 123, 132 of the source): numbers and infinities pass through
unchanged, text is parsed (unparsable text and the `nan` word become the
missing marker), empty cells stay missing, and datetime objects are not
numeric so they coerce to missing. -/
def coerceNum : Value → Value
  | .blank => .blank
  | .num q => .num q
  | .posInf => .posInf
  | .negInf => .negInf
  | .date _ => .blank
  | .text s =>
      match parseNum s with
      | some (.fin q) => .num q
      | some .pinf => .posInf
      | some .ninf => .negInf
      | none => .blank

/-- Cell-wise date coercion, embedding `pd.to_datetime(col, errors="coerce")`
(lines 97-100, 131 of the source): datetimes pass through unchanged, numbers
are read as epoch offsets (their integer part), text is parsed (unparsable
text becomes NaT, i.e. missing), and empty or infinite cells become missing. -/
def coerceDate : Value → Value
  | .date d => .date d
  | .num q => .date q.floor
  | .text s =>
      match parseDate s with
      | some d => .date d
      | none => .blank
  | _ => .blank

/-- Raw sheet grid: the untyped 2-D cell matrix produced by
`pd.read_excel(file, sheet_name=..., header=None)`. -/
abbrev Grid := List (List Value)

/-- Cell of a row at a column index; pandas frames are rectangular with NaN
padding, so an absent position reads as the missing marker. -/
def cellAt (r : List Value) (c : Nat) : Value :=
  r.getD c .blank

/-- Pad a row on the right with missing cells up to the given width. -/
def padRow (r : List Value) (n : Nat) : List Value :=
  r ++ List.replicate (n - r.length) .blank

/-- Replace the cell at column `c` by `f` of its current value (the
`df[col] = f(df[col])` column assignment, applied row-wise). -/
def setCol (c : Nat) (f : Value → Value) (r : List Value) : List Value :=
  (padRow r (c + 1)).set c (f (cellAt r c))

/-- Test of the boolean mask `df[0] == marker` on one row: true exactly when
the first cell is text equal (exactly, case- and whitespace-sensitively) to
the marker string. -/
def matchesMarker (m : String) (r : List Value) : Bool :=
  match cellAt r 0 with
  | .text s => s == m
  | _ => false

/-- Header-row search `df[df[0] == marker].index[0]` (lines 84 and 114 of
the source): index of the first row whose first cell equals the marker
exactly; `none` models the uncaught `IndexError` when no row matches. -/
def findHeaderRow (g : Grid) (m : String) : Option Nat :=
  g.findIdx? (matchesMarker m)

/-- Row of a grid at an index, an absent index reading as an empty row. -/
def rowAt (g : Grid) (i : Nat) : List Value :=
  g.getD i []

/-- Column lookup `df[name]` against a header row of labels: index of the
first header cell that is text equal to the name. -/
def colIndex (headers : List Value) (name : String) : Option Nat :=
  headers.findIdx? (fun v =>
    match v with
    | .text s => s == name
    | _ => false)

/-- Typed table: a header row of labels plus the typed data rows kept
below it. -/
structure Table where
  headers : List Value
  rows : List (List Value)
deriving DecidableEq

/-- Errors that escape a loader: the missing-sheet `ValueError` from
`read_excel`, the `IndexError` of the marker scan, and the `KeyError` of a
column access / `dropna(subset=...)` on an absent column. -/
inductive LoadError where
  | sheetMissing (name : String)
  | markerMissing (sheet : String)
  | columnMissing (name : String)
deriving DecidableEq

/-- Coerce one named column of the data rows with a cell-wise conversion,
when the column exists (the `if col in df.columns: df[col] = ...` pattern). -/
def coerceColBy (f : Value → Value) (name : String) (headers : List Value)
    (rows : List (List Value)) : List (List Value) :=
  match colIndex headers name with
  | some c => rows.map (setCol c f)
  | none => rows

/-- Hyphen removal of the BHK cleanup: `str.replace("-", "")` (line 105). -/
def stripHyphens (s : String) : String :=
  String.mk (s.data.filter (fun c => c ≠ '-'))

/-- String form of a cell under `astype(str)`.  Text passes through
unchanged and the missing marker renders as `nan` (these are the only cases
the BHK column of the sheets produces); numeric and datetime renderings are
abbreviated to a decimal-or-fraction form and the date code. -/
def valueStr : Value → String
  | .text s => s
  | .blank => "nan"
  | .posInf => "inf"
  | .negInf => "-inf"
  | .num q => if q.den = 1 then toString q.num ++ ".0"
              else toString q.num ++ "/" ++ toString q.den
  | .date d => toString d

/-- BHK cell cleanup of lines 104-105: `fillna("Other")` followed by
`astype(str).str.replace("-", "")`. -/
def bhkCell : Value → String
  | .blank => "Other"
  | v => stripHyphens (valueStr v)

/-- Numeric columns coerced by the sales loader (line 90). -/
def salesNumericCols : List String :=
  ["Area", "Sale Consideration", "BSP"]

/-- Sales sheet name used by `load_sales_data` (note the trailing space,
exactly as in the source). -/
def salesSheetName : String := "Monthly Sale Tracker "

/-- Bank sheet name used by `load_bank_data`. -/
def bankSheetName : String := "Bank Balances"

/-- Outflow sheet name used by `load_outflow_data`. -/
def outflowSheetName : String := "Project Outflow Statement"

/-- Column transforms of `load_sales_data` (lines 89-105) on the data rows
strictly below the header row `h`: numeric coercion of Area,
Sale Consideration and BSP, date coercion of the date column, and the BHK
cleanup, each applied only when the column exists. -/
def salesTransformedRows (g : Grid) (h : Nat) : List (List Value) :=
  coerceColBy (fun v => .text (bhkCell v)) "BHK" (rowAt g h)
    (coerceColBy coerceDate "Feed in 30-Month-Year format" (rowAt g h)
      (salesNumericCols.foldl
        (fun rs name => coerceColBy coerceNum name (rowAt g h) rs)
        (g.drop (h + 1))))

/-- Embedding of `load_sales_data` (lines 79-107): find the `Sr No` marker
row, promote it to the header, keep the rows strictly below with their
columns coerced (`salesTransformedRows`), and finally
`dropna(subset=["Sale Consideration"])`.  The errors model the uncaught
`IndexError` of the marker scan and the uncaught `KeyError` of `dropna` on
an absent column. -/
def load_sales_data (g : Grid) : Except LoadError Table :=
  match findHeaderRow g "Sr No" with
  | none => .error (.markerMissing salesSheetName)
  | some h =>
    match colIndex (rowAt g h) "Sale Consideration" with
    | none => .error (.columnMissing "Sale Consideration")
    | some sc =>
        .ok ⟨rowAt g h, (salesTransformedRows g h).filter (fun r => !isBlank (cellAt r sc))⟩

/-- Numeric columns coerced by the bank loader (line 120). -/
def bankNumericCols : List String :=
  ["Credit", "Debit", "Balance"]

/-- Column transforms of `load_bank_data` (lines 119-123) on the data rows
strictly below the header row `h`: numeric coercion of Credit, Debit and
Balance, each applied only when the column exists. -/
def bankTransformedRows (g : Grid) (h : Nat) : List (List Value) :=
  bankNumericCols.foldl
    (fun rs name => coerceColBy coerceNum name (rowAt g h) rs)
    (g.drop (h + 1))

/-- Embedding of `load_bank_data` (lines 109-125): find the `A/c #` marker
row, promote it to the header, keep the rows strictly below with Credit /
Debit / Balance coerced, and finally `dropna(subset=["Balance"])`. -/
def load_bank_data (g : Grid) : Except LoadError Table :=
  match findHeaderRow g "A/c #" with
  | none => .error (.markerMissing bankSheetName)
  | some h =>
    match colIndex (rowAt g h) "Balance" with
    | none => .error (.columnMissing "Balance")
    | some bc =>
        .ok ⟨rowAt g h, (bankTransformedRows g h).filter (fun r => !isBlank (cellAt r bc))⟩

/-- Column transforms of `load_outflow_data` (lines 131-132): date coercion
of the payment-date column and numeric coercion of the gross amount. -/
def outflowTransformedRows (body : List (List Value)) (dc gc : Nat) : List (List Value) :=
  (body.map (setCol dc coerceDate)).map (setCol gc coerceNum)

/-- Embedding of `load_outflow_data` (lines 127-135): the sheet is read with
its first row as header (default `header=0`), the date and gross-amount
columns are coerced, and rows missing the gross amount are dropped.  The
whole body sits in a `try/except` returning `None`, so every failure
(missing sheet handled by the caller, missing column here) yields `none`. -/
def load_outflow_data (g : Grid) : Option Table :=
  match g with
  | [] => none
  | headers :: body =>
    match colIndex headers "Date of Payment", colIndex headers "Gross Amount" with
    | some dc, some gc =>
        some ⟨headers, (outflowTransformedRows body dc gc).filter
          (fun r => !isBlank (cellAt r gc))⟩
    | _, _ => none

/-- Cell test of the account-sheet header scan (line 530):
`str(val).lower().strip() in ["txn date", "date"]`. -/
def isDateHeaderCell (v : Value) : Bool :=
  let s := trimChars (lowerChars (valueStr v).data)
  s = "txn date".data || s = "date".data

/-- Embedding of one iteration of `load_account_data` (lines 521-552) on the
grid of one `Ac #i` sheet: the sheet is read with its first row as header,
the remaining rows are scanned for the first row holding a `Txn Date` /
`Date` cell, that row is promoted to the header, Amount and Running Total
are coerced, rows missing Amount are dropped, and an empty result is
discarded.  All failures are swallowed (`except ... continue`), so the
result is an `Option`. -/
def load_account_sheet (g : Grid) : Option Table :=
  match g with
  | [] => none
  | _ :: body =>
    match body.findIdx? (fun r => r.any isDateHeaderCell) with
    | none => none
    | some i =>
      let headers := rowAt body i
      let rows0 := body.drop (i + 1)
      let rows1 := coerceColBy coerceNum "Amount" headers rows0
      let rows2 := coerceColBy coerceNum "Running Total" headers rows1
      match colIndex headers "Amount" with
      | none => none
      | some a =>
        let kept := rows2.filter (fun r => !isBlank (cellAt r a))
        if kept.isEmpty then none else some ⟨headers, kept⟩

/-- Uploaded workbook: the sheets the pipeline consumes, each present or
absent.  `accountSheets` stands for the thirteen `Ac #i` sheets. -/
structure XFile where
  salesSheet : Option Grid
  bankSheet : Option Grid
  outflowSheet : Option Grid
  accountSheets : List (Option Grid)

/-- Sheet access `pd.read_excel(file, sheet_name=name)`: raises a
`ValueError` when the sheet is absent. -/
def readSheet (s : Option Grid) (name : String) : Except LoadError Grid :=
  match s with
  | some g => .ok g
  | none => .error (.sheetMissing name)

/-- Sales loader at file level (read the sheet, then `load_sales_data`). -/
def loadSalesFromFile (f : XFile) : Except LoadError Table :=
  match readSheet f.salesSheet salesSheetName with
  | .error e => .error e
  | .ok g => load_sales_data g

/-- Bank loader at file level. -/
def loadBankFromFile (f : XFile) : Except LoadError Table :=
  match readSheet f.bankSheet bankSheetName with
  | .error e => .error e
  | .ok g => load_bank_data g

/-- Outflow loader at file level: the internal `try/except` also swallows
the missing-sheet error, so the result is `none` rather than a failure. -/
def loadOutflowFromFile (f : XFile) : Option Table :=
  f.outflowSheet.bind load_outflow_data

/-- Account loader at file level: each sheet is attempted independently and
failures are skipped (`except ... continue`). -/
def loadAccountsFromFile (f : XFile) : List Table :=
  f.accountSheets.filterMap (fun og => og.bind load_account_sheet)

/-- The assembled results of one run, as available to the rendering
sections after loading succeeds. -/
structure UnifiedModel where
  sales : Table
  bank : Table
  outflow : Option Table
  accounts : List Table

/-- Embedding of the loading block of `main` (lines 1032-1039): the four
loaders run sequentially inside one `try/except`, so the first escaping
error of the sales or bank loader aborts the whole run with a single
global error and no results. -/
def processUpload (f : XFile) : Except LoadError UnifiedModel :=
  match loadSalesFromFile f with
  | .error e => .error e
  | .ok s =>
    match loadBankFromFile f with
    | .error e => .error e
    | .ok b => .ok ⟨s, b, loadOutflowFromFile f, loadAccountsFromFile f⟩

/-- Row count of a successful load, `none` on failure (observation helper
for concrete runs). -/
def okRowCount (x : Except LoadError Table) : Option Nat :=
  match x with
  | .ok t => some t.rows.length
  | .error _ => none

/-- Data rows of a successful load, `none` on failure. -/
def okRows (x : Except LoadError Table) : Option (List (List Value)) :=
  match x with
  | .ok t => some t.rows
  | .error _ => none

/-- Error of a failed run, `none` on success. -/
def runError (x : Except LoadError UnifiedModel) : Option LoadError :=
  match x with
  | .error e => some e
  | .ok _ => none

/-- Month period of a cell, embedding
`pd.to_datetime(col).dt.to_period("M")` on the typed date column: with the
date code `y*10000 + m*100 + d`, the period is the code divided by 100
(`y*100 + m`); a non-date cell (NaT) has no period and its row is excluded
from the groupby. -/
def periodOf : Value → Option Int
  | .date d => some (d / 100)
  | _ => none

/-- Finite numeric reading of a measured cell; `none` on the missing
marker, which pandas sums skip.  The aggregation model assumes the measured
column holds no infinities (see the claim on infinite inputs: the code can
in fact let them through). -/
def valOf : Value → Option Rat
  | .num q => some q
  | _ => none

/-- Distinct month keys of the groupby, over rows whose date is present. -/
def monthlyKeys (rows : List (List Value)) (dc : Nat) : List Int :=
  (rows.filterMap (fun r => periodOf (cellAt r dc))).dedup

/-- Per-period total of the measured column, embedding the
`groupby(...).agg({"Sale Consideration": "sum"})` bucket sum of lines
281-288: rows of the period, measured values present, summed. -/
def bucketSum (rows : List (List Value)) (dc vc : Nat) (p : Int) : Rat :=
  (((rows.filter (fun r => periodOf (cellAt r dc) == some p)).filterMap
    (fun r => valOf (cellAt r vc))).sum)

/-- Sum of the per-period totals over all periods of the rollup. -/
def monthlyTotal (rows : List (List Value)) (dc vc : Nat) : Rat :=
  ((monthlyKeys rows dc).map (bucketSum rows dc vc)).sum

/-- Grand total of the measured column over rows whose measured value is
present, embedding `sales_df["Sale Consideration"].sum()` (line 145):
pandas `.sum()` skips missing values. -/
def grandTotalNonMissing (rows : List (List Value)) (vc : Nat) : Rat :=
  ((rows.filterMap (fun r => valOf (cellAt r vc))).sum)

/-- Total of the measured column over rows whose grouping date is present
(what the rollup actually reaches). -/
def datePresentTotal (rows : List (List Value)) (dc vc : Nat) : Rat :=
  (((rows.filter (fun r => (periodOf (cellAt r dc)).isSome)).filterMap
    (fun r => valOf (cellAt r vc))).sum)

/-- Python float value with NaN, as `float(...)` produces it. -/
inductive PyFloat where
  | fin (q : Rat)
  | pinf
  | ninf
  | nan
deriving DecidableEq

/-- Negation on Python floats. -/
def PyFloat.neg : PyFloat → PyFloat
  | .fin q => .fin (-q)
  | .pinf => .ninf
  | .ninf => .pinf
  | .nan => .nan

/-- Body of a `float(str)` literal after the optional sign, lower-cased:
`inf`, `infinity` and `nan` parse (NaN is a float, so `float("nan")` does
not raise), otherwise the decimal grammar applies. -/
def pyFloatBody (cs : List Char) : Option PyFloat :=
  if cs = "inf".data ∨ cs = "infinity".data then some .pinf
  else if cs = "nan".data then some .nan
  else (parseUnsigned cs).map PyFloat.fin

/-- Python `float(str)` conversion: trimmed, case-insensitive special
words, signed decimal grammar; `none` models the `ValueError`. -/
def pyFloatParse (s : String) : Option PyFloat :=
  match lowerChars (trimChars s.data) with
  | '-' :: r => (pyFloatBody r).map PyFloat.neg
  | '+' :: r => pyFloatBody r
  | r => pyFloatBody r

/-- Python `float(amount)` on a cell value: numbers and infinities convert,
text parses by the float grammar, and `None` or a datetime raise
(`TypeError`), modelled as `none`. -/
def pyFloat : Value → Option PyFloat
  | .num q => some (.fin q)
  | .posInf => some .pinf
  | .negInf => some .ninf
  | .blank => none
  | .date _ => none
  | .text s => pyFloatParse s

/-- Division by one crore (10,000,000) on Python floats, written on the
numerator and denominator so that it evaluates by kernel reduction. -/
def PyFloat.divCrore : PyFloat → PyFloat
  | .fin q => .fin (mkRat q.num (q.den * 10000000))
  | x => x

/-- Round `100 * q` to the nearest integer, ties to even (the rounding of
Python `format(x, ".2f")`), computed on the numerator and denominator. -/
def roundHalfEven100 (q : Rat) : Int :=
  let a := 100 * q.num
  let b := (q.den : Int)
  let fl := a.fdiv b
  let r := a - b * fl
  if 2 * r < b then fl
  else if b < 2 * r then fl + 1
  else if fl % 2 = 0 then fl else fl + 1

/-- Two-digit zero padding of the fractional part. -/
def pad2 (n : Nat) : String :=
  if n < 10 then "0" ++ toString n else toString n

/-- Decimal rendering of a finite value to two places, as `f"{x:.2f}"`
prints it (sign, integer part, point, two digits). -/
def ratFmt2 (q : Rat) : String :=
  let n := roundHalfEven100 q
  let sign := if q.num < 0 then "-" else ""
  let m := n.natAbs
  sign ++ toString (m / 100) ++ "." ++ pad2 (m % 100)

/-- Two-decimal rendering of a Python float, as the f-string prints it. -/
def fmtTwoDec : PyFloat → String
  | .fin q => ratFmt2 q
  | .pinf => "inf"
  | .ninf => "-inf"
  | .nan => "nan"

/-- Embedding of `format_indian_currency` (lines 70-77): try
`float(amount)`, divide by one crore and print to two decimals with the
rupee prefix and ` Cr` suffix; on any conversion error return the fixed
zero string. -/
def format_indian_currency (v : Value) : String :=
  match pyFloat v with
  | some x => "₹" ++ fmtTwoDec (PyFloat.divCrore x) ++ " Cr"
  | none => "₹0.00 Cr"

/-- Modelled from the spec: the case- and whitespace-insensitive label
comparison the specification ascribes to the marker search ("equals the
marker under case/whitespace-insensitive comparison").  Whitespace is
removed and case folded before comparing. -/
def specLabelEq (a b : String) : Bool :=
  lowerChars (a.data.filter (fun c => !c.isWhitespace))
    = lowerChars (b.data.filter (fun c => !c.isWhitespace))

/-- A row is fully blank when every cell is the missing marker (and an
absent cell reads as missing). -/
def rowAllBlank (r : List Value) : Bool :=
  r.all isBlank

/-- A coerced numeric cell is typed: a number, an infinity or the missing
marker, never raw text or a datetime. -/
def isTypedNumCell : Value → Bool
  | .blank => true
  | .num _ => true
  | .posInf => true
  | .negInf => true
  | _ => false

/-- A coerced date cell is typed: a datetime or the missing marker. -/
def isTypedDateCell : Value → Bool
  | .blank => true
  | .date _ => true
  | _ => false


/-- Sales grid of the failure-propagation scenario: a well-formed sales
sheet with one data row. -/
def propSalesGrid : Grid :=
  [[.text "Sr No", .text "Sale Consideration"],
   [.num 1, .num 5000000]]

/-- Upload of the failure-propagation scenario: the sales sheet is present
and well-formed, the bank-balance sheet is entirely absent. -/
def propFile : XFile :=
  ⟨some propSalesGrid, none, none, []⟩

/-- Upload in which every loader succeeds or is internally guarded: sales
and bank sheets well-formed, outflow sheet absent. -/
def propGoodFile : XFile :=
  ⟨some propSalesGrid,
   some [[.text "A/c #", .text "Balance"], [.num 7, .num 100]],
   none, []⟩

/-- Sales grid of the rollup counterexample: two sale rows, one with an
unparsable date. -/
def rollupGrid : Grid :=
  [[.text "Sr No", .text "Sale Consideration", .text "Feed in 30-Month-Year format"],
   [.num 1, .num 7, .text "2024-01-15"],
   [.num 2, .num 5, .text "late Jan"]]

/-- Typed rows the sales loader produces from `rollupGrid`. -/
def rollupRows : List (List Value) :=
  [[.num 1, .num 7, .date 20240115],
   [.num 2, .num 5, .blank]]

/-- Junk banner row above the sales table in the header-promotion
scenario. -/
def scenarioJunkRow : List Value :=
  [.text "Project Sales Summary", .blank, .blank, .blank, .blank]

/-- Header row of the scenario, holding the `Sr No` marker in the search
column. -/
def scenarioHeaderRow : List Value :=
  [.text "Sr No", .text "Area", .text "Sale Consideration", .text "BHK",
   .text "Feed in 30-Month-Year format"]

/-- One raw data row of the scenario. -/
def scenarioDataRow : List Value :=
  [.num 1, .num 500, .num 5000000, .text "2-BHK", .text "2024-03-15"]

/-- The same data row after the loader's type coercions and BHK cleanup. -/
def scenarioTypedRow : List Value :=
  [.num 1, .num 500, .num 5000000, .text "2BHK", .date 20240315]

/-- Fully blank row below the data. -/
def scenarioBlankRow : List Value :=
  [.blank, .blank, .blank, .blank, .blank]

/-- Stray footer row: text in the first column, every domain column
blank. -/
def scenarioFooterRow : List Value :=
  [.text "Total", .blank, .blank, .blank, .blank]

/-- The scenario sheet: marker at row 7, data at rows 8..50 (43 rows), a
blank row at 51 and a stray footer at 52. -/
def scenarioGrid : Grid :=
  List.replicate 7 scenarioJunkRow ++ [scenarioHeaderRow]
    ++ List.replicate 43 scenarioDataRow ++ [scenarioBlankRow, scenarioFooterRow]

/-- Counterexample grid for the general header-promotion rule: the single
row below the header is not fully blank (it has a serial number and a
tower label) yet its `Sale Consideration` cell is blank. -/
def partialRowGrid : Grid :=
  [[.text "Sr No", .text "Sale Consideration", .text "Tower"],
   [.num 1, .blank, .text "T1"]]

/-- Helper: a filtered list filtered again by the same predicate is
unchanged. -/
theorem filter_self_idem {α : Type} (p : α → Bool) (l : List α) :
    (l.filter p).filter p = l.filter p := by
  induction l with
  | nil => rfl
  | cons a t ih =>
    by_cases h : p a = true
    · simp [List.filter_cons, h, ih]
    · simp only [Bool.not_eq_true] at h
      simp [List.filter_cons, h, ih]

/-- Helper: hyphen stripping is idempotent. -/
theorem stripHyphens_idem (s : String) :
    stripHyphens (stripHyphens s) = stripHyphens s := by
  simp [stripHyphens, filter_self_idem]

/-- C3: coercion of unparsable input is the missing marker, and coercion is
total with typed output.  A text cell that does not parse as a number
coerces to missing under the numeric target; a text cell that does not
parse as a date coerces to missing under the date target; and on every
input both coercions return a typed cell (no exception, no raw string
leaks through). -/
theorem coerce_unparsable_is_missing :
    (∀ s, parseNum s = none → coerceNum (Value.text s) = Value.blank)
    ∧ (∀ v, isTypedNumCell (coerceNum v) = true)
    ∧ (∀ s, parseDate s = none → coerceDate (Value.text s) = Value.blank)
    ∧ (∀ v, isTypedDateCell (coerceDate v) = true) := by
  refine ⟨fun s h => ?_, fun v => ?_, fun s h => ?_, fun v => ?_⟩
  · simp [coerceNum, h]
  · cases v with
    | text s =>
        cases hp : parseNum s with
        | none => simp [coerceNum, hp, isTypedNumCell]
        | some x => cases x <;> simp [coerceNum, hp, isTypedNumCell]
    | _ => simp [coerceNum, isTypedNumCell]
  · simp [coerceDate, h]
  · cases v with
    | text s =>
        cases hp : parseDate s with
        | none => simp [coerceDate, hp, isTypedDateCell]
        | some x => simp [coerceDate, hp, isTypedDateCell]
    | _ => simp [coerceDate, isTypedDateCell]

/-- C3 witness: the coercion facts at the concrete unparsable input
`hello`. -/
theorem coerce_unparsable_is_missing_witness :
    coerceNum (Value.text "hello") = Value.blank
    ∧ coerceDate (Value.text "hello") = Value.blank :=
  ⟨coerce_unparsable_is_missing.1 "hello" (by decide),
   coerce_unparsable_is_missing.2.2.1 "hello" (by decide)⟩

/-- C7: type coercion is idempotent for both target types, and an
already-typed value is returned unchanged. -/
theorem coerce_idempotent :
    (∀ v, coerceNum (coerceNum v) = coerceNum v)
    ∧ (∀ v, coerceDate (coerceDate v) = coerceDate v)
    ∧ (∀ q, coerceNum (Value.num q) = Value.num q)
    ∧ (∀ d, coerceDate (Value.date d) = Value.date d) := by
  refine ⟨fun v => ?_, fun v => ?_, fun q => rfl, fun d => rfl⟩
  · cases v with
    | text s =>
        cases hp : parseNum s with
        | none => simp [coerceNum, hp]
        | some x => cases x <;> simp [coerceNum, hp]
    | _ => simp [coerceNum]
  · cases v with
    | text s =>
        cases hp : parseDate s with
        | none => simp [coerceDate, hp]
        | some x => simp [coerceDate, hp]
    | _ => simp [coerceDate]

/-- C6 counterexample: an infinite input is not mapped to the missing
marker by numeric coercion — a cell holding infinity stays infinite, and
the text `inf` parses to infinity — so infinite values do enter typed
numeric columns, contrary to the claim. -/
theorem coerce_infinity_counterexample :
    coerceNum Value.posInf = Value.posInf
    ∧ coerceNum (Value.text "inf") = Value.posInf
    ∧ Value.posInf ≠ Value.blank := by
  refine ⟨by decide, by decide, by decide⟩

/-- C6 amended: numeric coercion preserves infinities rather than mapping
them to missing — an infinite cell passes through unchanged and text
parsing to an infinity coerces to that infinity — so downstream sums can
become non-finite. -/
theorem coerce_infinity_preserved :
    coerceNum Value.posInf = Value.posInf
    ∧ coerceNum Value.negInf = Value.negInf
    ∧ (∀ s, parseNum s = some XNum.pinf → coerceNum (Value.text s) = Value.posInf)
    ∧ (∀ s, parseNum s = some XNum.ninf → coerceNum (Value.text s) = Value.negInf) := by
  refine ⟨rfl, rfl, fun s h => ?_, fun s h => ?_⟩
  · simp [coerceNum, h]
  · simp [coerceNum, h]

/-- C6 amended witness: the infinity words at concrete inputs. -/
theorem coerce_infinity_preserved_witness :
    coerceNum (Value.text " Infinity ") = Value.posInf
    ∧ coerceNum (Value.text "-inf") = Value.negInf :=
  ⟨coerce_infinity_preserved.2.2.1 " Infinity " (by decide),
   coerce_infinity_preserved.2.2.2 "-inf" (by decide)⟩

/-- C4 counterexample: the BHK normalization does not merge the three
spellings — it only removes hyphens, so `2 BHK` keeps its space and `2bhk`
keeps its case, and the three labels resolve to three distinct
categories. -/
theorem bhk_normalization_counterexample :
    bhkCell (Value.text "2 BHK") = "2 BHK"
    ∧ bhkCell (Value.text "2-BHK") = "2BHK"
    ∧ bhkCell (Value.text "2bhk") = "2bhk"
    ∧ bhkCell (Value.text "2 BHK") ≠ bhkCell (Value.text "2-BHK")
    ∧ bhkCell (Value.text "2bhk") ≠ bhkCell (Value.text "2-BHK") := by
  refine ⟨by decide, by decide, by decide, by decide, by decide⟩

/-- C4 amended: the unit-type normalization only strips hyphen characters
(after nulls are replaced by `Other`): hyphenated spellings merge with
their unhyphenated form, renormalizing is a no-op, but labels differing in
case or whitespace stay distinct (witnessed by the three concrete
spellings above). -/
theorem bhk_normalization_hyphens_only :
    (∀ s, stripHyphens (stripHyphens s) = stripHyphens s)
    ∧ (∀ v, bhkCell (Value.text (bhkCell v)) = bhkCell v)
    ∧ bhkCell Value.blank = "Other"
    ∧ bhkCell (Value.text "2-BHK") = bhkCell (Value.text "2BHK") := by
  refine ⟨stripHyphens_idem, fun v => ?_, rfl, by decide⟩
  cases v with
  | blank => simp [bhkCell, valueStr, stripHyphens]
  | text s => simp [bhkCell, valueStr, stripHyphens_idem]
  | num q =>
      by_cases h : q.den = 1 <;>
        simp [bhkCell, valueStr, h, stripHyphens_idem]
  | posInf => simp [bhkCell, valueStr, stripHyphens_idem]
  | negInf => simp [bhkCell, valueStr, stripHyphens_idem]
  | date d => simp [bhkCell, valueStr, stripHyphens_idem]

/-- Helper: an empty row never matches the marker. -/
theorem matchesMarker_nil (m : String) : matchesMarker m [] = false := rfl

/-- Helper: the header-row search succeeds with index `i` exactly when row
`i` matches the marker and no earlier row does. -/
theorem findHeaderRow_some_iff (g : Grid) (m : String) (i : Nat) :
    findHeaderRow g m = some i ↔
      (matchesMarker m (rowAt g i) = true
        ∧ ∀ j, j < i → matchesMarker m (rowAt g j) = false) := by
  rw [findHeaderRow, List.findIdx?_eq_some_iff_getElem]
  constructor
  · rintro ⟨h, hp, hj⟩
    refine ⟨?_, fun j hji => ?_⟩
    · rw [rowAt, List.getD_eq_getElem g [] h]
      exact hp
    · have hjl : j < g.length := lt_trans hji h
      rw [rowAt, List.getD_eq_getElem g [] hjl]
      simpa using hj j hji
  · rintro ⟨hp, hj⟩
    have hl : i < g.length := by
      by_contra hcon
      push_neg at hcon
      rw [rowAt, List.getD_eq_default g [] hcon, matchesMarker_nil] at hp
      exact Bool.false_ne_true hp
    refine ⟨hl, ?_, fun j hji => ?_⟩
    · rw [rowAt, List.getD_eq_getElem g [] hl] at hp
      exact hp
    · have hjl : j < g.length := lt_trans hji hl
      have := hj j hji
      rw [rowAt, List.getD_eq_getElem g [] hjl] at this
      simpa using this

/-- Helper: the header-row search fails exactly when no row matches the
marker. -/
theorem findHeaderRow_none_iff (g : Grid) (m : String) :
    findHeaderRow g m = none ↔ ∀ i, matchesMarker m (rowAt g i) = false := by
  rw [findHeaderRow, List.findIdx?_eq_none_iff]
  constructor
  · intro h i
    by_cases hl : i < g.length
    · rw [rowAt, List.getD_eq_getElem g [] hl]
      exact h _ (List.getElem_mem hl)
    · push_neg at hl
      rw [rowAt, List.getD_eq_default g [] hl, matchesMarker_nil]
  · intro h x hx
    obtain ⟨i, hi, rfl⟩ := List.mem_iff_getElem.mp hx
    have := h i
    rwa [rowAt, List.getD_eq_getElem g [] hi] at this

/-- C1 counterexample: the marker comparison of the header search is exact,
not case/whitespace-insensitive — on a grid whose first row holds `SR NO`
in the search column, the spec-side insensitive comparison matches the
marker `Sr No` at row 0, yet the search finds nothing (the code raises
`IndexError`, modelled `none`), so the locate operation neither returns
the first insensitively matching row nor restricts failure to grids with
no insensitive match. -/
theorem marker_locate_counterexample :
    specLabelEq "SR NO" "Sr No" = true
    ∧ findHeaderRow [[Value.text "SR NO", Value.text "x"]] "Sr No" = none := by
  refine ⟨by decide, by decide⟩

/-- C1 amended: the locate operation scans top to bottom for the first row
whose search-column cell is text exactly equal to the marker (case- and
whitespace-sensitively); when no row matches exactly it fails — an uncaught
`IndexError`, modelled as `none` — and in particular never falls back to
row 0 or any other default index. -/
theorem marker_locate_exact (g : Grid) (m : String) :
    (∀ i, findHeaderRow g m = some i ↔
      (matchesMarker m (rowAt g i) = true
        ∧ ∀ j, j < i → matchesMarker m (rowAt g j) = false))
    ∧ (findHeaderRow g m = none ↔ ∀ i, matchesMarker m (rowAt g i) = false) :=
  ⟨fun i => findHeaderRow_some_iff g m i, findHeaderRow_none_iff g m⟩

/-- C1 amended witness: on a concrete grid with the exact marker at row 2
(and a decoy at row 1), the search returns 2; on a markerless grid it
returns `none`. -/
theorem marker_locate_exact_witness :
    findHeaderRow [[Value.blank], [Value.text "sr no"], [Value.text "Sr No"]] "Sr No" = some 2
    ∧ findHeaderRow [[Value.text "nope"]] "Sr No" = none :=
  ⟨((marker_locate_exact [[Value.blank], [Value.text "sr no"], [Value.text "Sr No"]] "Sr No").1 2).mpr
      ⟨by decide, by decide⟩,
   ((marker_locate_exact [[Value.text "nope"]] "Sr No").2).mpr (by
      intro i
      match i with
      | 0 => decide
      | n + 1 => rfl)⟩

/-- C2 counterexample: with the bank sheet entirely absent, the run aborts
with the single global bank error even though the sales sheet on its own
loads into a one-row table — the sales table is not retrievable from the
run, contrary to the claim that one domain's failure never prevents the
others' results. -/
theorem domain_isolation_counterexample :
    runError (processUpload propFile) = some (LoadError.sheetMissing bankSheetName)
    ∧ okRowCount (loadSalesFromFile propFile) = some 1 := by
  refine ⟨by decide, by decide⟩

/-- C2 amended: the four loaders run sequentially inside one global
`try/except`, so a bank-domain failure aborts the whole run — the run
result is that single error and the already-loaded sales table is not
retrievable; only the outflow and per-account loaders are failure-scoped
(they swallow their errors internally), so when sales and bank both load,
the run succeeds whatever the outflow and account sheets hold. -/
theorem domain_isolation_amended :
    (∀ f s e, loadSalesFromFile f = .ok s → loadBankFromFile f = .error e →
        processUpload f = .error e)
    ∧ (∀ f s b, loadSalesFromFile f = .ok s → loadBankFromFile f = .ok b →
        processUpload f =
          .ok ⟨s, b, loadOutflowFromFile f, loadAccountsFromFile f⟩) := by
  constructor
  · intro f s e hs hb
    simp [processUpload, hs, hb]
  · intro f s b hs hb
    simp [processUpload, hs, hb]

/-- C2 amended witness: the two branches at concrete uploads — the
bank-failure run aborts with the bank error, and the fully-loadable run
returns the model. -/
theorem domain_isolation_amended_witness :
    processUpload propFile = .error (LoadError.sheetMissing bankSheetName)
    ∧ processUpload propGoodFile =
        .ok ⟨⟨[.text "Sr No", .text "Sale Consideration"], [[.num 1, .num 5000000]]⟩,
             ⟨[.text "A/c #", .text "Balance"], [[.num 7, .num 100]]⟩,
             loadOutflowFromFile propGoodFile, loadAccountsFromFile propGoodFile⟩ :=
  ⟨domain_isolation_amended.1 propFile
      ⟨[.text "Sr No", .text "Sale Consideration"], [[.num 1, .num 5000000]]⟩
      (LoadError.sheetMissing bankSheetName) rfl rfl,
   domain_isolation_amended.2 propGoodFile
      ⟨[.text "Sr No", .text "Sale Consideration"], [[.num 1, .num 5000000]]⟩
      ⟨[.text "A/c #", .text "Balance"], [[.num 7, .num 100]]⟩
      rfl rfl⟩

/-- Helper: bucket sum over a cons row adds that row's contribution when
its period matches. -/
theorem bucketSum_cons (r : List Value) (rest : List (List Value)) (dc vc : Nat) (p : Int) :
    bucketSum (r :: rest) dc vc p
      = (if periodOf (cellAt r dc) = some p then (valOf (cellAt r vc)).getD 0 else 0)
        + bucketSum rest dc vc p := by
  by_cases h : periodOf (cellAt r dc) = some p
  · cases hv : valOf (cellAt r vc) with
    | none => simp [bucketSum, List.filter_cons, h, hv]
    | some v => simp [bucketSum, List.filter_cons, h, hv]
  · simp [bucketSum, List.filter_cons, h]

/-- Helper: date-present total over a cons row adds that row's contribution
when its period is present. -/
theorem datePresentTotal_cons (r : List Value) (rest : List (List Value)) (dc vc : Nat) :
    datePresentTotal (r :: rest) dc vc
      = (if (periodOf (cellAt r dc)).isSome then (valOf (cellAt r vc)).getD 0 else 0)
        + datePresentTotal rest dc vc := by
  by_cases h : (periodOf (cellAt r dc)).isSome
  · cases hv : valOf (cellAt r vc) with
    | none => simp [datePresentTotal, List.filter_cons, h, hv]
    | some v => simp [datePresentTotal, List.filter_cons, h, hv]
  · simp [datePresentTotal, List.filter_cons, h]

/-- Helper: sums distribute over pointwise addition of mapped functions. -/
theorem sum_map_addRat (K : List Int) (f g : Int → Rat) :
    (K.map (fun k => f k + g k)).sum = (K.map f).sum + (K.map g).sum := by
  induction K with
  | nil => simp
  | cons a t ih =>
      simp only [List.map_cons, List.sum_cons, ih]
      ring

/-- Helper: over a duplicate-free key list containing `p0`, the sum of the
indicator contribution is the contribution itself. -/
theorem sum_ite_single (K : List Int) (p0 : Int) (v : Rat)
    (hnd : K.Nodup) (hmem : p0 ∈ K) :
    (K.map (fun k => if p0 = k then v else 0)).sum = v := by
  induction K with
  | nil => cases hmem
  | cons a t ih =>
      rcases List.mem_cons.mp hmem with rfl | hm
      · have hnotin : p0 ∉ t := (List.nodup_cons.mp hnd).1
        have hz : t.map (fun k => if p0 = k then v else (0 : Rat)) = t.map (fun _ => 0) := by
          apply List.map_congr_left
          intro x hx
          have : p0 ≠ x := by
            rintro rfl
            exact hnotin hx
          simp [this]
        simp [hz]
      · have ha : p0 ≠ a := by
          rintro rfl
          exact (List.nodup_cons.mp hnd).1 hm
        simp [ha, ih (List.nodup_cons.mp hnd).2 hm]

/-- Helper: the sum of all bucket sums over any duplicate-free key list
covering the rows' periods equals the date-present total. -/
theorem sum_buckets (rows : List (List Value)) (dc vc : Nat) (K : List Int)
    (hnd : K.Nodup)
    (hcov : ∀ r ∈ rows, ∀ p, periodOf (cellAt r dc) = some p → p ∈ K) :
    (K.map (bucketSum rows dc vc)).sum = datePresentTotal rows dc vc := by
  induction rows with
  | nil =>
      have hz : K.map (bucketSum [] dc vc) = K.map (fun _ => (0 : Rat)) := by
        apply List.map_congr_left
        intro k _
        simp [bucketSum]
      simp [hz, datePresentTotal]
  | cons r rest ih =>
      have hcov' : ∀ r' ∈ rest, ∀ p, periodOf (cellAt r' dc) = some p → p ∈ K :=
        fun r' hr' p hp => hcov r' (List.mem_cons_of_mem _ hr') p hp
      have hmap : K.map (bucketSum (r :: rest) dc vc)
          = K.map (fun k =>
              (if periodOf (cellAt r dc) = some k then (valOf (cellAt r vc)).getD 0 else 0)
                + bucketSum rest dc vc k) := by
        apply List.map_congr_left
        intro k _
        exact bucketSum_cons r rest dc vc k
      rw [hmap, sum_map_addRat, ih hcov', datePresentTotal_cons]
      congr 1
      cases hp : periodOf (cellAt r dc) with
      | none => simp
      | some p0 =>
          have hmem : p0 ∈ K := hcov r (List.mem_cons_self r rest) p0 hp
          simp only [Option.isSome_some, if_true]
          have hconv : K.map (fun k =>
                if some p0 = some k then (valOf (cellAt r vc)).getD 0 else 0)
              = K.map (fun k => if p0 = k then (valOf (cellAt r vc)).getD 0 else 0) := by
            apply List.map_congr_left
            intro k _
            simp
          rw [hconv, sum_ite_single K p0 ((valOf (cellAt r vc)).getD 0) hnd hmem]

/-- C5 amended: the monthly rollup round-trips to the total over exactly
those rows whose grouping date is present — the sum of the per-period
totals over all periods equals the sum of the measured column over rows
with a non-missing grouping value and non-missing measured value.  Rows
with a missing date are excluded from every bucket (but still counted by
the plain column total, which is why the claim as stated fails). -/
theorem rollup_roundtrip_date_present (rows : List (List Value)) (dc vc : Nat) :
    monthlyTotal rows dc vc = datePresentTotal rows dc vc :=
  sum_buckets rows dc vc (monthlyKeys rows dc) (List.nodup_dedup _)
    (fun r hr _ hp => List.mem_dedup.mpr (List.mem_filterMap.mpr ⟨r, hr, hp⟩))

/-- C5 counterexample: on an assembled sales table holding a row whose
measured value is present but whose date is missing, the sum of the
per-period totals (7) differs from the sum of the measured column over all
non-missing measured rows (12) — the monthly rollup does not round-trip to
the grand total. -/
theorem rollup_counterexample :
    okRows (load_sales_data rollupGrid) = some rollupRows
    ∧ monthlyTotal rollupRows 2 1 = 7
    ∧ grandTotalNonMissing rollupRows 1 = 12
    ∧ monthlyTotal rollupRows 2 1 ≠ grandTotalNonMissing rollupRows 1 := by
  have h2 : monthlyTotal rollupRows 2 1 = 7 := by
    simp [monthlyTotal, monthlyKeys, bucketSum, periodOf, cellAt, valOf, rollupRows]
  have h3 : grandTotalNonMissing rollupRows 1 = 12 := by
    simp [grandTotalNonMissing, cellAt, valOf, rollupRows]
    norm_num
  refine ⟨by decide, h2, h3, ?_⟩
  rw [h2, h3]
  norm_num

/-- C8 counterexample: the kept data rows are not "the rows strictly below
the header with fully-blank rows filtered out" — a row that is not fully
blank but lacks a `Sale Consideration` value is dropped too, so the rule
as stated over-counts.  On `partialRowGrid` the claim predicts one data
row; the loader keeps none. -/
theorem header_promotion_counterexample :
    okRows (load_sales_data partialRowGrid) = some []
    ∧ rowAllBlank [Value.num 1, Value.blank, Value.text "T1"] = false := by
  refine ⟨by decide, by decide⟩

/-- C8 amended: the data rows kept are the rows strictly below the header
row whose coerced `Sale Consideration` cell is non-missing (which excludes
fully-blank rows as a special case).  In the scenario — marker at row 7,
data in rows 8..50, a blank row 51 and a footer row 52 with all domain
columns blank — the loader finds the header at row 7 and yields exactly
the 43 typed data rows, the blank and footer rows excluded. -/
theorem header_promotion_scenario :
    findHeaderRow scenarioGrid "Sr No" = some 7
    ∧ okRows (load_sales_data scenarioGrid) = some (List.replicate 43 scenarioTypedRow) := by
  refine ⟨by decide, by decide⟩

/-- C9: every table a domain loader returns is free of missing values in
its key measure column — each loader ends with `dropna` on that column, so
every surviving row of the sales table has a non-missing
`Sale Consideration`, every row of the bank table a non-missing `Balance`,
and every row of the outflow table a non-missing `Gross Amount`. -/
theorem loaders_key_measure_nonmissing :
    (∀ g t, load_sales_data g = .ok t →
      ∃ c, colIndex t.headers "Sale Consideration" = some c
        ∧ ∀ r ∈ t.rows, isBlank (cellAt r c) = false)
    ∧ (∀ g t, load_bank_data g = .ok t →
      ∃ c, colIndex t.headers "Balance" = some c
        ∧ ∀ r ∈ t.rows, isBlank (cellAt r c) = false)
    ∧ (∀ g t, load_outflow_data g = some t →
      ∃ c, colIndex t.headers "Gross Amount" = some c
        ∧ ∀ r ∈ t.rows, isBlank (cellAt r c) = false) := by
  refine ⟨fun g t h => ?_, fun g t h => ?_, fun g t h => ?_⟩
  · unfold load_sales_data at h
    split at h
    · exact absurd h (by simp)
    · split at h
      · exact absurd h (by simp)
      · rename_i hrow hsc
        injection h with h2
        subst h2
        refine ⟨_, hsc, fun r hr => ?_⟩
        have := List.mem_filter.mp hr
        simpa using this.2
  · unfold load_bank_data at h
    split at h
    · exact absurd h (by simp)
    · split at h
      · exact absurd h (by simp)
      · rename_i hrow hbc
        injection h with h2
        subst h2
        refine ⟨_, hbc, fun r hr => ?_⟩
        have := List.mem_filter.mp hr
        simpa using this.2
  · unfold load_outflow_data at h
    split at h
    · exact absurd h (by simp)
    · split at h
      · rename_i hdc hgc
        injection h with h2
        subst h2
        refine ⟨_, hgc, fun r hr => ?_⟩
        have := List.mem_filter.mp hr
        simpa using this.2
      · exact absurd h (by simp)

/-- C9 witness: the invariant at three concrete sheets, one per loader. -/
theorem loaders_key_measure_nonmissing_witness :
    (∃ c, colIndex [Value.text "Sr No", Value.text "Sale Consideration"]
        "Sale Consideration" = some c
      ∧ ∀ r ∈ [[Value.num 1, Value.num 5000000]], isBlank (cellAt r c) = false)
    ∧ (∃ c, colIndex [Value.text "A/c #", Value.text "Balance"] "Balance" = some c
      ∧ ∀ r ∈ [[Value.num 7, Value.num 100]], isBlank (cellAt r c) = false)
    ∧ (∃ c, colIndex [Value.text "Date of Payment", Value.text "Gross Amount"]
        "Gross Amount" = some c
      ∧ ∀ r ∈ [[Value.date 20240102, Value.num 3]], isBlank (cellAt r c) = false) :=
  ⟨loaders_key_measure_nonmissing.1 propSalesGrid
      ⟨[Value.text "Sr No", Value.text "Sale Consideration"],
       [[Value.num 1, Value.num 5000000]]⟩ rfl,
   loaders_key_measure_nonmissing.2.1
      [[.text "A/c #", .text "Balance"], [.num 7, .num 100]]
      ⟨[Value.text "A/c #", Value.text "Balance"], [[Value.num 7, Value.num 100]]⟩ rfl,
   loaders_key_measure_nonmissing.2.2
      [[.text "Date of Payment", .text "Gross Amount"], [.text "2024-01-02", .num 3]]
      ⟨[Value.text "Date of Payment", Value.text "Gross Amount"],
       [[Value.date 20240102, Value.num 3]]⟩ rfl⟩

/-- Helper: the evaluable crore division agrees with true division by
10,000,000. -/
theorem mkRat_den_crore (q : Rat) : mkRat q.num (q.den * 10000000) = q / 10000000 := by
  rw [Rat.mkRat_eq_div]
  push_cast
  rw [← div_div, Rat.num_div_den]

/-- C10: the currency formatter is total — every input yields a string and
no exception escapes.  An input that converts to a Python float is
rendered as that value divided by 10,000,000 to two decimals between the
rupee prefix and the ` Cr` suffix (in particular any numeric cell), and
every input whose conversion raises gets the fixed zero-crore fallback
string. -/
theorem currency_formatter_total :
    (∀ v, pyFloat v = none → format_indian_currency v = "₹0.00 Cr")
    ∧ (∀ v x, pyFloat v = some x →
        format_indian_currency v = "₹" ++ fmtTwoDec (PyFloat.divCrore x) ++ " Cr")
    ∧ (∀ q, format_indian_currency (Value.num q)
        = "₹" ++ ratFmt2 (q / 10000000) ++ " Cr") := by
  refine ⟨fun v h => ?_, fun v x h => ?_, fun q => ?_⟩
  · simp [format_indian_currency, h]
  · simp [format_indian_currency, h]
  · have h1 : pyFloat (Value.num q) = some (.fin q) := rfl
    simp [format_indian_currency, h1, PyFloat.divCrore, fmtTwoDec, mkRat_den_crore]

/-- C10 witness: the fallback at a non-numeric text input and the
crore-divided rendering at one crore. -/
theorem currency_formatter_total_witness :
    format_indian_currency (Value.text "not a number") = "₹0.00 Cr"
    ∧ format_indian_currency (Value.num 10000000)
        = "₹" ++ ratFmt2 ((10000000 : Rat) / 10000000) ++ " Cr"
    ∧ format_indian_currency (Value.num 10000000) = "₹1.00 Cr" :=
  ⟨currency_formatter_total.1 (Value.text "not a number") (by decide),
   currency_formatter_total.2.2 10000000,
   by decide⟩
